import Mathlib

/-!
Verification development for the generic TCP-serial relay module
(`companion-module-generic-tcp-serial`).

The development shallowly embeds the relevant parts of the module
(the `TSPInstance` class of the modern source variant) as pure Lean
functions over an explicit instance-state record `ModState`.

Modelling conventions:
* raw byte chunks (Node `Buffer`s / latin1 strings) are `List Nat`;
* JavaScript `undefined` instance fields (created by `delete this.x`)
  are `Option` fields set to `none`;
* Node timers are modelled by a pool of pending timer ids
  (`pendingTimers`) together with the handles the instance stores
  (`portScan` for the discovery interval, `serialInterval` for the
  response watchdog); `setTimeout`/`setInterval` allocates a fresh id,
  `clearInterval`/`clearTimeout` removes the id from the pool;
* objects the instance drops with `delete` but that keep existing in the
  runtime (sockets after `sock.end()`, the server, the serial handle)
  are moved into `detachedSockets` / `detachedServers` /
  `detachedSerials` so that their final condition stays observable;
* outbound effects are recorded in trace fields: `hostStatus` for every
  `this.updateStatus(...)` call, `logs` for every `this.log(...)` call,
  and `statusEmits` for the deduplicated emissions of `doUpdateStatus`;
* host-variable publication (`updateVariables`/`setVariableValues`) is
  an external collaborator call with no bearing on the claims and is
  elided from the state.
-/

namespace TSP

/-- A raw data chunk (Node `Buffer`): a list of byte values. -/
abbrev Chunk := List Nat

/-- One TCP client socket as the relay sees it: an identity (standing in
for JavaScript object identity), the log of chunks written to it, and
whether `end()` has been called on it. -/
structure TSocket where
  id : Nat
  written : List Chunk
  ended : Bool
deriving DecidableEq

/-- The serial-port handle (`this.sPort`): open flag and the log of
chunks written to the device. -/
structure SerialPortH where
  isOpen : Bool
  written : List Chunk
deriving DecidableEq

/-- The TCP server handle (`this.tServer`): whether it is listening and
its current connection count (`tServer.connections`). -/
structure ServerH where
  listening : Bool
  connections : Nat
deriving DecidableEq

/-- A discovered serial port descriptor, as pushed onto
`this.foundPorts` by `findPorts`. -/
structure PortDesc where
  path : String
  manufacturer : String
deriving DecidableEq

/-- A raw entry of `SerialPort.list()` before filtering.  JavaScript
string truthiness is modelled by `"" = falsy`. -/
structure RawPort where
  path : String
  comName : String
  manufacturer : String
  locationId : String
  pnpId : String
deriving DecidableEq

/-- JavaScript truthiness of a string field. -/
def truthy (s : String) : Bool := s ≠ ""

/-- The user configuration fields the embedded handlers read. -/
structure Config where
  iport : Nat
  sport : String
  response : Bool
  maxresponse : Nat
  errormessage : Chunk
deriving DecidableEq

/-- An error object delivered to a serial/socket event handler
(`err.message`, `err.disconnected`). -/
structure JsErr where
  message : String
  disconnected : Bool
deriving DecidableEq

/-- A log level as used by `this.log(l, m)`. -/
inductive Level where
  | info
  | error
deriving DecidableEq

/-- The string a `Level` contributes to the status fingerprint. -/
def Level.str : Level → String
  | .info => "info"
  | .error => "error"

/-- The `InstanceStatus` values the module uses. -/
inductive IStatus where
  | Ok
  | Error
  | ConnectionFailure
  | Connecting
  | BadConfig
  | Disconnected
deriving DecidableEq

/-- The string an `IStatus` contributes to the status fingerprint
(the value of the string enum member). -/
def IStatus.str : IStatus → String
  | .Ok => "ok"
  | .Error => "error"
  | .ConnectionFailure => "connection_failure"
  | .Connecting => "connecting"
  | .BadConfig => "bad_config"
  | .Disconnected => "disconnected"

/-- The instance state of `TSPInstance`, together with the timer pool
and the outbound-effect traces described in the file header. -/
structure ModState where
  config : Config
  foundPorts : Option (List PortDesc)
  tSockets : Option (List TSocket)
  sPortPath : String
  isOpen : Bool
  iPPort : Nat
  isListening : Bool
  startedAt : Nat
  lastStatus : Option String
  portScan : Option Nat
  serialInterval : Option Nat
  sPort : Option SerialPortH
  tServer : Option ServerH
  scanning : Bool
  pendingTimers : List Nat
  nextTimerId : Nat
  detachedSockets : List TSocket
  detachedServers : List ServerH
  detachedSerials : List SerialPortH
  statusEmits : List (Level × IStatus × String)
  hostStatus : List (IStatus × Option String)
  logs : List (String × String)
deriving DecidableEq

/-- `this.LOG_DELAY`: the startup grace window in milliseconds. -/
def LOG_DELAY : Nat := 10000

/-- `('0' + n.toString(16)).slice(-2)`: a byte as (at least) two
lowercase hex digits, truncated to the last two characters. -/
def hex2 (n : Nat) : String :=
  let l := '0' :: Nat.toDigits 16 n
  (l.drop (l.length - 2)).asString

/-- The module's `toHex` helper: every byte expanded to 2-digit hex,
joined with `delim`. -/
def toHex (data : Chunk) (delim : String) : String :=
  String.intercalate delim (data.map hex2)

/-- `clearInterval(h)` against the pending-timer pool: a no-op when the
handle is `undefined`, otherwise removes that timer. -/
def clearTimer (h : Option Nat) (ts : List Nat) : List Nat :=
  match h with
  | some t => ts.erase t
  | none => ts

/-- The non-listening tail of the `doUpdateStatus` decision chain
(rules 2-6): the `else` branches taken when `this.isListening` is
false.  Returns `none` when the status is suppressed (`s = null`). -/
def nonListeningStatus (st : ModState) (now : Nat) (err : Option JsErr) :
    Option (Level × IStatus × String) :=
  match err with
  | some e => some (.error, .Error, "Error: " ++ e.message)
  | none =>
    if st.foundPorts.isNone || decide (st.startedAt + LOG_DELAY > now) then
      none
    else if (st.foundPorts.getD []).length == 0 then
      some (.error, .ConnectionFailure, "No serial ports detected")
    else if st.sPort.isSome && decide (st.sPortPath ≠ "none") then
      some (.info, .Connecting, "Connecting to " ++ st.sPortPath)
    else
      some (.error, .BadConfig, "No serial port configured")

/-- The full `doUpdateStatus` decision chain: rule 1 (listening) first,
otherwise the non-listening tail. -/
def computeStatus (st : ModState) (now : Nat) (err : Option JsErr) :
    Option (Level × IStatus × String) :=
  if st.isListening then
    some (.info, .Ok, "Listening on TCP port " ++ toString st.iPPort)
  else
    nonListeningStatus st now err

/-- The deduplication fingerprint `l + m + s` of a status triple. -/
def fingerprint (t : Level × IStatus × String) : String :=
  t.1.str ++ t.2.2 ++ t.2.1.str

/-- `doUpdateStatus(err)`: compute the status triple; when it is not
suppressed and its fingerprint differs from `this.lastStatus`, call
`updateStatus`, log, and record the new fingerprint. -/
def doUpdateStatus (st : ModState) (now : Nat) (err : Option JsErr) : ModState :=
  match computeStatus st now err with
  | none => st
  | some t =>
    if st.lastStatus = some (fingerprint t) then st
    else
      { st with
        hostStatus := st.hostStatus ++ [(t.2.1, some t.2.2)]
        logs := st.logs ++ [(t.1.str, t.2.2)]
        statusEmits := st.statusEmits ++ [t]
        lastStatus := some (fingerprint t) }

/-- The `'data'` handler installed on each client socket in `init_tcp`
(it logs, writes the chunk to the serial port, and, when the
`response` option is on, stores a fresh watchdog timeout in
`this.SERIAL_INTERVAL` — without clearing the previous one). -/
def socketData (st : ModState) (data : Chunk) : ModState :=
  let st1 := { st with logs := st.logs ++ [("debug", "TCP: " ++ toHex (data ++ [32]) "")] }
  let st2 := { st1 with sPort := st1.sPort.map fun (p : SerialPortH) => { p with written := p.written ++ [data] } }
  if st2.config.response then
    { st2 with
      pendingTimers := st2.pendingTimers ++ [st2.nextTimerId]
      serialInterval := some st2.nextTimerId
      nextTimerId := st2.nextTimerId + 1 }
  else st2

/-- The `'data'` handler installed on the serial port in `init_serial`
(when at least one client is connected it logs and forwards the chunk
to every socket in `this.tSockets`; it then always clears the timer
stored in `this.SERIAL_INTERVAL`). -/
def serialData (st : ModState) (data : Chunk) : ModState :=
  let st1 :=
    if (st.tSockets.getD []).length > 0 then
      let st' := { st with logs := st.logs ++ [("debug", "COM> " ++ toHex (data ++ [32]) "")] }
      { st' with tSockets := st'.tSockets.map (List.map fun (s : TSocket) => { s with written := s.written ++ [data] }) }
    else st
  { st1 with pendingTimers := clearTimer st1.serialInterval st1.pendingTimers }

/-- The `'close'` handler installed on the serial port in `init_serial`:
update the status with the error, and when the close is a hardware
disconnect (`err.disconnected`), end every client socket, close the
server and clear `this.isListening`. -/
def serialClose (st : ModState) (now : Nat) (err : JsErr) : ModState :=
  let st1 := doUpdateStatus st now (some err)
  if err.disconnected then
    let st2 := { st1 with tSockets := st1.tSockets.map (List.map fun (s : TSocket) => { s with ended := true }) }
    let st3 := { st2 with tServer := st2.tServer.map fun (sv : ServerH) => { sv with listening := false } }
    { st3 with isListening := false }
  else st1

/-- `tSockets.splice(tSockets.indexOf(socket), 1)`: remove the first
socket with the given identity; when absent (`indexOf` is `-1`,
`splice(-1, 1)`) JavaScript removes the last element. -/
def spliceRemove (socks : List TSocket) (sid : Nat) : List TSocket :=
  match socks.findIdx? (fun s => s.id == sid) with
  | some i => socks.eraseIdx i
  | none => socks.dropLast

/-- The `'close'` handler installed on each client socket in `init_tcp`:
splice the socket out of `this.tSockets` and recompute
`this.isListening` as `tSockets.length > 0`. -/
def socketClose (st : ModState) (sid : Nat) : ModState :=
  match st.tSockets with
  | none => st
  | some socks =>
    let socks := spliceRemove socks sid
    { st with tSockets := some socks, isListening := decide (socks.length > 0) }

/-- `sendError()`: raise an error status, log the max-response-time
violation, write `config.errormessage` to every socket, and clear the
timer stored in `this.SERIAL_INTERVAL`. -/
def sendError (st : ModState) : ModState :=
  let st1 := { st with hostStatus := st.hostStatus ++ [(IStatus.Error, none)] }
  let st2 := { st1 with
    logs := st1.logs ++
      [("error",
        "Error: No response received via Serial connection in the max allotted time of "
          ++ toString st.config.maxresponse ++ "ms")] }
  let st3 := { st2 with
    tSockets := st2.tSockets.map (List.map fun (s : TSocket) => { s with written := s.written ++ [st.config.errormessage] }) }
  { st3 with pendingTimers := clearTimer st3.serialInterval st3.pendingTimers }

/-- `clearAll()`: clear the discovery interval if set; end and drop
every socket; drop the server, closing it only when
`tServer.connections > 0`; drop the serial handle, closing it when
open.  The dropped objects move to the `detached*` fields.  Note the
handle in `this.SERIAL_INTERVAL` is not touched. -/
def clearAll (st : ModState) : ModState :=
  let st1 :=
    match st.portScan with
    | some t => { st with pendingTimers := st.pendingTimers.erase t, portScan := none }
    | none => st
  let st2 :=
    match st1.tSockets with
    | some socks =>
      { st1 with
        tSockets := none
        detachedSockets := st1.detachedSockets ++ socks.map fun (s : TSocket) => { s with ended := true } }
    | none => st1
  let st3 :=
    match st2.tServer with
    | some sv =>
      let sv := if sv.connections > 0 then { sv with listening := false } else sv
      { st2 with tServer := none, detachedServers := st2.detachedServers ++ [sv] }
    | none => st2
  match st3.sPort with
  | some p =>
    let p := if p.isOpen then { p with isOpen := false } else p
    { st3 with sPort := none, detachedSerials := st3.detachedSerials ++ [p] }
  | none => st3

/-- `destroy()`: `clearAll`, then clear the watchdog timer stored in
`this.SERIAL_INTERVAL`, report `Disconnected`, and log. -/
def destroy (st : ModState) : ModState :=
  let st1 := clearAll st
  let st2 := { st1 with pendingTimers := clearTimer st1.serialInterval st1.pendingTimers }
  let st3 := { st2 with hostStatus := st2.hostStatus ++ [(IStatus.Disconnected, some "Disabled")] }
  { st3 with logs := st3.logs ++ [("debug", "Destroyed")] }

/-- `findPorts()`: guarded by `this.scanning`; clears `this.foundPorts`
to `[]` up front, then resolves the `SerialPort.list()` promise
(modelled synchronously by the `res` argument).  On success it keeps
the ports with hardware-identifying metadata, prepends the `"none"`
placeholder when any were found, and updates the status; on failure it
only writes a debug log entry. -/
def findPorts (st : ModState) (now : Nat) (res : Except String (List RawPort)) : ModState :=
  if st.scanning then st
  else
    let st1 := { st with scanning := true, foundPorts := some [] }
    match res with
    | .ok ports =>
      let fps := ports.filterMap fun (p : RawPort) =>
        if truthy p.locationId || truthy p.pnpId then
          some { path := if truthy p.path then p.path else p.comName
                 manufacturer := if truthy p.manufacturer then p.manufacturer else "Internal" }
        else none
      let fps := if fps.length > 0 then ⟨"none", "Not configured"⟩ :: fps else fps
      let st2 := { st1 with foundPorts := some fps }
      let st3 := doUpdateStatus st2 now none
      { st3 with scanning := false }
    | .error e =>
      { st1 with logs := st1.logs ++ [("debug", "SerialPort.list: " ++ e)], scanning := false }

/-! ## Concrete states used by witnesses and counterexamples -/

/-- A concrete configuration snapshot. -/
def baseConfig : Config :=
  { iport := 32100, sport := "COM5", response := false, maxresponse := 1000
    errormessage := [69, 82, 82] }

/-- A concrete quiescent instance state. -/
def baseState : ModState :=
  { config := baseConfig
    foundPorts := some []
    tSockets := some []
    sPortPath := "COM5"
    isOpen := false
    iPPort := 32100
    isListening := false
    startedAt := 0
    lastStatus := none
    portScan := none
    serialInterval := none
    sPort := none
    tServer := none
    scanning := false
    pendingTimers := []
    nextTimerId := 0
    detachedSockets := []
    detachedServers := []
    detachedSerials := []
    statusEmits := []
    hostStatus := []
    logs := [] }

/-! ## Helper lemmas -/

/-- Field effect of the client-socket data handler: the chunk goes to
the serial write log and nothing else the relay owns changes. -/
theorem socketData_fields (st : ModState) (d : Chunk) :
    (socketData st d).sPort
        = st.sPort.map (fun (p : SerialPortH) => { p with written := p.written ++ [d] }) ∧
    (socketData st d).tSockets = st.tSockets ∧
    (socketData st d).config = st.config := by
  simp only [socketData]
  split <;> exact ⟨rfl, rfl, rfl⟩

/-- Field effect of the serial data handler on the client sockets: every
socket currently in `tSockets` gets the chunk appended. -/
theorem serialData_tSockets (st : ModState) (socks : List TSocket) (d : Chunk)
    (h : st.tSockets = some socks) :
    (serialData st d).tSockets
      = some (socks.map fun (s : TSocket) => { s with written := s.written ++ [d] }) := by
  cases socks with
  | nil => simp [serialData, h]
  | cons a l => simp [serialData, h]

/-! ## C1 -/

/-- C1: for every sequence of data events arriving from a TCP client
while the relay runs, the bytes are written only to the serial
endpoint, in the order received, and no client socket (hence no other
active client) is ever written those bytes. -/
theorem clientData_only_serial (st : ModState) (p : SerialPortH) (ds : List Chunk)
    (h : st.sPort = some p) :
    (ds.foldl socketData st).sPort = some { p with written := p.written ++ ds } ∧
    (ds.foldl socketData st).tSockets = st.tSockets := by
  induction ds generalizing st p with
  | nil =>
    refine ⟨?_, rfl⟩
    rw [List.foldl_nil, h]
    simp
  | cons d ds ih =>
    obtain ⟨h1, h2, _⟩ := socketData_fields st d
    have hp : (socketData st d).sPort = some { p with written := p.written ++ [d] } := by
      rw [h1, h]; rfl
    obtain ⟨ih1, ih2⟩ := ih (socketData st d) { p with written := p.written ++ [d] } hp
    refine ⟨?_, ?_⟩
    · rw [List.foldl_cons, ih1]
      simp [List.append_assoc]
    · rw [List.foldl_cons, ih2, h2]

/-- Witness for C1: two client chunks land on the serial endpoint in
order and the client sockets are untouched. -/
theorem clientData_only_serial_witness :
    (([[1, 2], [3]] : List Chunk).foldl socketData
        { baseState with sPort := some { isOpen := true, written := [] } }).sPort
      = some { isOpen := true, written := ([[1, 2], [3]] : List Chunk) } ∧
    (([[1, 2], [3]] : List Chunk).foldl socketData
        { baseState with sPort := some { isOpen := true, written := [] } }).tSockets
      = some [] :=
  clientData_only_serial _ { isOpen := true, written := [] } [[1, 2], [3]] rfl

/-! ## C2 -/

/-- C2: for every sequence of data events arriving from the serial
endpoint, every currently active TCP client is written an identical
copy of exactly those bytes, in receipt order, untransformed. -/
theorem serialBroadcast_all_clients (st : ModState) (socks : List TSocket) (ds : List Chunk)
    (h : st.tSockets = some socks) :
    (ds.foldl serialData st).tSockets
      = some (socks.map fun (s : TSocket) => { s with written := s.written ++ ds }) := by
  induction ds generalizing st socks with
  | nil =>
    rw [List.foldl_nil, h]
    have he : ∀ s : TSocket, ({ s with written := s.written ++ [] } : TSocket) = s := by
      intro s; simp
    simp [he]
  | cons d ds ih =>
    rw [List.foldl_cons]
    have h1 := serialData_tSockets st socks d h
    rw [ih (serialData st d) _ h1, List.map_map]
    congr 1
    apply List.map_congr_left
    intro s _
    simp [Function.comp_apply, List.append_assoc]

/-- Witness for C2: two serial chunks are broadcast identically, in
order, to both connected clients. -/
theorem serialBroadcast_all_clients_witness :
    (([[7], [8]] : List Chunk).foldl serialData
        { baseState with tSockets := some [⟨1, [], false⟩, ⟨2, [], false⟩] }).tSockets
      = some [⟨1, [[7], [8]], false⟩, ⟨2, [[7], [8]], false⟩] :=
  serialBroadcast_all_clients _ [⟨1, [], false⟩, ⟨2, [], false⟩] [[7], [8]] rfl

/-! ## C3 -/

/-- A running state: discovery interval 3 and watchdog timeout 7 are
pending, one client is connected, the server listens with
`connections = 0`, and the serial port is open. -/
def c3State : ModState :=
  { baseState with
    portScan := some 3
    serialInterval := some 7
    pendingTimers := [3, 7]
    tSockets := some [⟨1, [], false⟩]
    tServer := some ⟨true, 0⟩
    sPort := some ⟨true, []⟩ }

/-- C3: evaluating `clearAll` at `c3State` shows the teardown is not
complete: the watchdog timeout 7 stays pending (only `destroy` clears
it) and the dropped server is still listening because `close()` is
guarded by `connections > 0`; the discovery timer, clients and serial
handle are torn down, and a second `clearAll` is a no-op. -/
theorem clearAll_incomplete_teardown :
    (clearAll c3State).pendingTimers = [7] ∧
    (clearAll c3State).serialInterval = some 7 ∧
    (clearAll c3State).detachedServers = [⟨true, 0⟩] ∧
    (clearAll c3State).portScan = none ∧
    (clearAll c3State).tSockets = none ∧
    (clearAll c3State).detachedSockets = [⟨1, [], true⟩] ∧
    (clearAll c3State).detachedSerials = [⟨false, []⟩] ∧
    clearAll (clearAll c3State) = clearAll c3State ∧
    (destroy c3State).pendingTimers = [] := by
  decide

/-! ## C6 -/

/-- A state with `responseExpected` on, one client and an open serial
port, and no watchdog armed yet. -/
def c6State : ModState :=
  { baseState with
    config := { baseConfig with response := true }
    tSockets := some [⟨1, [], false⟩]
    sPort := some ⟨true, []⟩ }

/-- C6: evaluating the client-data handler twice shows the watchdog
timers stack: after two inbound client writes both timeouts 0 and 1
are outstanding (the stored handle only remembers the newer one), and
a subsequent serial byte cancels only timeout 1, leaving timeout 0 to
fire. -/
theorem watchdog_timers_stack :
    (socketData (socketData c6State [255]) [254]).pendingTimers = [0, 1] ∧
    (socketData (socketData c6State [255]) [254]).serialInterval = some 1 ∧
    (serialData (socketData (socketData c6State [255]) [254]) [1]).pendingTimers = [0] := by
  decide

/-! ## C7 -/

/-- Mapping a socket-updating function under `Option`/`List` preserves
any projection it does not change. -/
theorem option_list_map_proj {β : Type} (f : TSocket → TSocket) (g : TSocket → β)
    (hfg : ∀ s, g (f s) = g s) (o : Option (List TSocket)) :
    (o.map (List.map f)).map (List.map g) = o.map (List.map g) := by
  cases o <;> simp [List.map_map, Function.comp, hfg]

/-- C7: when the watchdog fires, `sendError` writes the configured
error message to every active client, raises an error status and logs
the violation, while leaving the serial handle untouched (it stays
open) and evicting no client (identities and ended flags are
preserved). -/
theorem sendError_soft_error (st : ModState) :
    (sendError st).tSockets
        = st.tSockets.map (List.map fun (s : TSocket) =>
            { s with written := s.written ++ [st.config.errormessage] }) ∧
    (sendError st).hostStatus = st.hostStatus ++ [(IStatus.Error, none)] ∧
    (sendError st).logs = st.logs ++
      [("error",
        "Error: No response received via Serial connection in the max allotted time of "
          ++ toString st.config.maxresponse ++ "ms")] ∧
    (sendError st).sPort = st.sPort ∧
    (sendError st).tSockets.map (List.map TSocket.id)
        = st.tSockets.map (List.map TSocket.id) ∧
    (sendError st).tSockets.map (List.map TSocket.ended)
        = st.tSockets.map (List.map TSocket.ended) := by
  refine ⟨rfl, rfl, rfl, rfl, ?_, ?_⟩
  · exact option_list_map_proj
      (fun (s : TSocket) => { s with written := s.written ++ [st.config.errormessage] })
      TSocket.id (fun s => rfl) st.tSockets
  · exact option_list_map_proj
      (fun (s : TSocket) => { s with written := s.written ++ [st.config.errormessage] })
      TSocket.ended (fun s => rfl) st.tSockets

/-! ## C4 -/

/-- A state holding a previously discovered port set and no scan in
flight. -/
def c4State : ModState :=
  { baseState with
    foundPorts := some [⟨"none", "Not configured"⟩, ⟨"COM5", "FTDI"⟩] }

/-- Counterexample for C4: a failing enumeration does not leave the
previously discovered port set untouched — `findPorts` clears
`foundPorts` to `[]` before the call resolves, so after the failure
the previous two descriptors are gone. -/
theorem findPorts_failure_discards_previous :
    c4State.foundPorts = some [⟨"none", "Not configured"⟩, ⟨"COM5", "FTDI"⟩] ∧
    (findPorts c4State 20000 (.error "boom")).foundPorts = some [] := by
  decide

/-- C4 (amended): on enumeration failure the discovered set — already
cleared at scan start — stays empty rather than keeping the previous
ports; the failure is only written to the log as a `debug` diagnostic,
with no status emission and no host status call, and the scanning
guard is released so the scan can be retried on the next tick. -/
theorem findPorts_failure_nonfatal (st : ModState) (now : Nat) (e : String)
    (h : st.scanning = false) :
    (findPorts st now (.error e)).foundPorts = some [] ∧
    (findPorts st now (.error e)).scanning = false ∧
    (findPorts st now (.error e)).logs = st.logs ++ [("debug", "SerialPort.list: " ++ e)] ∧
    (findPorts st now (.error e)).statusEmits = st.statusEmits ∧
    (findPorts st now (.error e)).hostStatus = st.hostStatus ∧
    (findPorts st now (.error e)).lastStatus = st.lastStatus := by
  simp [findPorts, h]

/-- Witness for C4 (amended) at the concrete state `c4State`. -/
theorem findPorts_failure_nonfatal_witness :
    (findPorts c4State 20000 (.error "boom")).foundPorts = some [] ∧
    (findPorts c4State 20000 (.error "boom")).scanning = false ∧
    (findPorts c4State 20000 (.error "boom")).logs
        = c4State.logs ++ [("debug", "SerialPort.list: " ++ "boom")] ∧
    (findPorts c4State 20000 (.error "boom")).statusEmits = c4State.statusEmits ∧
    (findPorts c4State 20000 (.error "boom")).hostStatus = c4State.hostStatus ∧
    (findPorts c4State 20000 (.error "boom")).lastStatus = c4State.lastStatus :=
  findPorts_failure_nonfatal c4State 20000 "boom" rfl

/-! ## C8 -/

/-- When the status is suppressed (`s = null`), `doUpdateStatus`
changes nothing. -/
theorem doUpdateStatus_of_none (st : ModState) (now : Nat) (err : Option JsErr)
    (hc : computeStatus st now err = none) :
    doUpdateStatus st now err = st := by
  unfold doUpdateStatus
  rw [hc]

/-- A state inside the grace window whose discovery has already
produced two descriptors, with a closed serial handle attached. -/
def c8State : ModState :=
  { baseState with
    foundPorts := some [⟨"none", "Not configured"⟩, ⟨"COM5", "FTDI"⟩]
    sPort := some ⟨false, []⟩
    startedAt := 0 }

/-- Counterexample for C8: at time 5000, inside the grace window, with
discovery having produced a result, no error and no listener, the code
still suppresses the emission entirely — the claim says that once
discovery has produced a result, rules 4-6 apply even inside the
window. -/
theorem grace_window_suppresses_despite_discovery :
    c8State.isListening = false ∧
    c8State.foundPorts = some [⟨"none", "Not configured"⟩, ⟨"COM5", "FTDI"⟩] ∧
    c8State.startedAt + LOG_DELAY > 5000 ∧
    computeStatus c8State 5000 none = none ∧
    doUpdateStatus c8State 5000 none = c8State := by
  decide

/-- C8 (amended): while the server is not listening and no error is
pending, emission is suppressed exactly when the discovered-ports
field is unset or the instance is still within the startup grace
window — inside the window suppression happens regardless of whether
discovery has produced a result — and suppression leaves the state
unchanged. -/
theorem status_suppression_rule (st : ModState) (now : Nat)
    (hL : st.isListening = false) :
    (computeStatus st now none = none ↔
      st.foundPorts = none ∨ st.startedAt + LOG_DELAY > now) ∧
    (computeStatus st now none = none → doUpdateStatus st now none = st) := by
  have key : computeStatus st now none = none ↔
      (st.foundPorts.isNone || decide (st.startedAt + LOG_DELAY > now)) = true := by
    unfold computeStatus nonListeningStatus
    rw [hL]
    simp only [Bool.false_eq_true, if_false]
    constructor
    · intro hnone
      by_contra hA
      simp only [Bool.not_eq_true] at hA
      rw [hA] at hnone
      simp only [Bool.false_eq_true, if_false] at hnone
      revert hnone
      split <;> (try split) <;> simp
    · intro hA
      rw [hA]
      simp
  refine ⟨?_, fun hc => doUpdateStatus_of_none st now none hc⟩
  rw [key]
  simp [Bool.or_eq_true, Option.isNone_iff_eq_none, decide_eq_true_eq]

/-- Witness for C8 (amended) at the concrete state `c8State`. -/
theorem status_suppression_rule_witness :
    (computeStatus c8State 5000 none = none ↔
      c8State.foundPorts = none ∨ c8State.startedAt + LOG_DELAY > 5000) ∧
    (computeStatus c8State 5000 none = none → doUpdateStatus c8State 5000 none = c8State) :=
  status_suppression_rule c8State 5000 rfl

/-! ## C9 -/

/-- `doUpdateStatus` only writes the status traces and the recorded
fingerprint; all relay-owned state is untouched. -/
theorem doUpdateStatus_frame (st : ModState) (now : Nat) (err : Option JsErr) :
    (doUpdateStatus st now err).tSockets = st.tSockets ∧
    (doUpdateStatus st now err).tServer = st.tServer ∧
    (doUpdateStatus st now err).isListening = st.isListening ∧
    (doUpdateStatus st now err).sPort = st.sPort ∧
    (doUpdateStatus st now err).iPPort = st.iPPort ∧
    (doUpdateStatus st now err).sPortPath = st.sPortPath ∧
    (doUpdateStatus st now err).foundPorts = st.foundPorts ∧
    (doUpdateStatus st now err).serialInterval = st.serialInterval ∧
    (doUpdateStatus st now err).pendingTimers = st.pendingTimers ∧
    (doUpdateStatus st now err).portScan = st.portScan ∧
    (doUpdateStatus st now err).config = st.config ∧
    (doUpdateStatus st now err).startedAt = st.startedAt ∧
    (doUpdateStatus st now err).scanning = st.scanning := by
  unfold doUpdateStatus
  split
  · exact ⟨rfl, rfl, rfl, rfl, rfl, rfl, rfl, rfl, rfl, rfl, rfl, rfl, rfl⟩
  · split
    · exact ⟨rfl, rfl, rfl, rfl, rfl, rfl, rfl, rfl, rfl, rfl, rfl, rfl, rfl⟩
    · exact ⟨rfl, rfl, rfl, rfl, rfl, rfl, rfl, rfl, rfl, rfl, rfl, rfl, rfl⟩

/-- C9: a serial close carrying the hardware-disconnect flag cascades —
every active client socket is ended, the listener is closed and the
listening flag cleared — while a close without the flag leaves the
clients, the server and the flag untouched. -/
theorem serialClose_cascade (st : ModState) (now : Nat) (err : JsErr) :
    (err.disconnected = true →
      (serialClose st now err).tSockets
          = st.tSockets.map (List.map fun (s : TSocket) => { s with ended := true }) ∧
      (serialClose st now err).tServer
          = st.tServer.map (fun (sv : ServerH) => { sv with listening := false }) ∧
      (serialClose st now err).isListening = false) ∧
    (err.disconnected = false →
      (serialClose st now err).tSockets = st.tSockets ∧
      (serialClose st now err).tServer = st.tServer ∧
      (serialClose st now err).isListening = st.isListening) := by
  obtain ⟨h1, h2, h3, _⟩ := doUpdateStatus_frame st now (some err)
  constructor
  · intro hd
    simp only [serialClose, hd, if_true]
    exact ⟨by rw [← h1], by rw [← h2], by trivial⟩
  · intro hd
    simp only [serialClose, hd, Bool.false_eq_true, if_false]
    exact ⟨h1, h2, h3⟩

/-- Two clients connected, server listening, serial open. -/
def c9State : ModState :=
  { baseState with
    tSockets := some [⟨1, [], false⟩, ⟨2, [], false⟩]
    isListening := true
    tServer := some ⟨true, 2⟩
    sPort := some ⟨true, []⟩ }

/-- Witness for C9: a hardware disconnect with two clients connected
ends both sockets, closes the listener, and clears the flag. -/
theorem serialClose_cascade_witness :
    (serialClose c9State 0 ⟨"gone", true⟩).tSockets
        = some [⟨1, [], true⟩, ⟨2, [], true⟩] ∧
    (serialClose c9State 0 ⟨"gone", true⟩).tServer = some ⟨false, 2⟩ ∧
    (serialClose c9State 0 ⟨"gone", true⟩).isListening = false :=
  (serialClose_cascade c9State 0 ⟨"gone", true⟩).1 rfl

/-! ## C10 -/

/-- The non-listening decision chain never yields the `Ok` status. -/
theorem nonListeningStatus_ne_ok (st : ModState) (now : Nat) (err : Option JsErr)
    (t : Level × IStatus × String) (h : nonListeningStatus st now err = some t) :
    t.2.1 ≠ IStatus.Ok := by
  unfold nonListeningStatus at h
  cases err with
  | some e =>
    cases h
    simp
  | none =>
    dsimp only at h
    split at h
    · exact Option.noConfusion h
    · split at h
      · cases h; simp
      · split at h
        · cases h; simp
        · cases h; simp

/-- C10: after the close event of the last active client the listening
flag is false even though the server handle is untouched (still bound
and accepting), so the next status recomputation takes the
non-listening decision chain — whose result is never the Ok
"Listening on TCP port P" status. -/
theorem last_client_close_drops_listening (st : ModState) (s : TSocket)
    (h : st.tSockets = some [s]) :
    (socketClose st s.id).isListening = false ∧
    (socketClose st s.id).tSockets = some [] ∧
    (socketClose st s.id).tServer = st.tServer ∧
    (∀ now err, computeStatus (socketClose st s.id) now err
        = nonListeningStatus (socketClose st s.id) now err) ∧
    (∀ now err t, computeStatus (socketClose st s.id) now err = some t →
        t.2.1 ≠ IStatus.Ok) := by
  have hs : socketClose st s.id = { st with tSockets := some [], isListening := false } := by
    unfold socketClose
    rw [h]
    simp [spliceRemove]
  refine ⟨by rw [hs], by rw [hs], by rw [hs], ?_, ?_⟩
  · intro now err
    rw [hs]
    unfold computeStatus
    simp
  · intro now err t hc
    rw [hs] at hc
    unfold computeStatus at hc
    simp only [Bool.false_eq_true, if_false] at hc
    exact nonListeningStatus_ne_ok _ now err t hc

/-- One client connected, server listening, serial open. -/
def c10State : ModState :=
  { baseState with
    tSockets := some [⟨5, [], false⟩]
    isListening := true
    tServer := some ⟨true, 1⟩
    sPort := some ⟨true, []⟩ }

/-- Witness for C10: closing the only client clears the listening flag,
leaves the server handle bound, and the next status recomputation is
never the Ok listening status. -/
theorem last_client_close_drops_listening_witness :
    (socketClose c10State 5).isListening = false ∧
    (socketClose c10State 5).tSockets = some [] ∧
    (socketClose c10State 5).tServer = some ⟨true, 1⟩ ∧
    (∀ now err, computeStatus (socketClose c10State 5) now err
        = nonListeningStatus (socketClose c10State 5) now err) ∧
    (∀ now err t, computeStatus (socketClose c10State 5) now err = some t →
        t.2.1 ≠ IStatus.Ok) :=
  last_client_close_drops_listening c10State ⟨5, [], false⟩ rfl

/-! ## C5 -/

/-- Invariant of the status monitor: no two consecutive recorded
emissions are equal, and the recorded fingerprint is the fingerprint
of the last emission (when one exists). -/
def StatusInv (st : ModState) : Prop :=
  st.statusEmits.Chain' (fun a b => a ≠ b) ∧
  ∀ t, st.statusEmits.getLast? = some t → st.lastStatus = some (fingerprint t)

/-- Appending an element different from the last one preserves the
pairwise-distinct chain. -/
theorem chain_ne_append_one {α : Type} (l : List α) (x : α)
    (h : l.Chain' (fun a b => a ≠ b))
    (hx : ∀ y, l.getLast? = some y → y ≠ x) :
    (l ++ [x]).Chain' (fun a b => a ≠ b) := by
  rw [List.chain'_append]
  refine ⟨h, List.chain'_singleton x, ?_⟩
  intro y hy z hz
  simp only [List.head?_cons, Option.mem_def, Option.some.injEq] at hz
  subst hz
  exact hx y (by simpa using hy)

/-- C5: the status monitor is edge-triggered.  Under the invariant, a
`doUpdateStatus` run preserves it, performs an emission exactly when a
status triple is computed whose fingerprint differs from the recorded
one, and in that case appends that triple and records its fingerprint
— so no two consecutive emissions carry the same triple. -/
theorem doUpdateStatus_edge_triggered (st : ModState) (now : Nat) (err : Option JsErr)
    (h : StatusInv st) :
    StatusInv (doUpdateStatus st now err) ∧
    ((doUpdateStatus st now err).statusEmits ≠ st.statusEmits ↔
      ∃ t, computeStatus st now err = some t ∧ st.lastStatus ≠ some (fingerprint t)) ∧
    (∀ t, computeStatus st now err = some t → st.lastStatus ≠ some (fingerprint t) →
      (doUpdateStatus st now err).statusEmits = st.statusEmits ++ [t] ∧
      (doUpdateStatus st now err).lastStatus = some (fingerprint t)) := by
  rcases hc : computeStatus st now err with _ | t
  · rw [doUpdateStatus_of_none st now err hc]
    refine ⟨h, by simp [hc], ?_⟩
    intro t ht
    exact absurd ht (by simp)
  · by_cases hl : st.lastStatus = some (fingerprint t)
    · have he : doUpdateStatus st now err = st := by
        unfold doUpdateStatus
        rw [hc]
        simp [hl]
      rw [he]
      refine ⟨h, ?_, ?_⟩
      · constructor
        · intro hne
          exact absurd rfl hne
        · rintro ⟨t', ht', hl'⟩
          injection ht' with ht''
          subst ht''
          exact absurd hl hl'
      · intro t' ht' hl'
        injection ht' with ht''
        subst ht''
        exact absurd hl hl'
    · have hse : (doUpdateStatus st now err).statusEmits = st.statusEmits ++ [t] := by
        unfold doUpdateStatus
        rw [hc]
        simp [hl]
      have hls : (doUpdateStatus st now err).lastStatus = some (fingerprint t) := by
        unfold doUpdateStatus
        rw [hc]
        simp [hl]
      refine ⟨⟨?_, ?_⟩, ?_, ?_⟩
      · rw [hse]
        apply chain_ne_append_one _ _ h.1
        intro y hy heq
        apply hl
        rw [← heq]
        exact h.2 y hy
      · intro t' ht'
        rw [hse, List.getLast?_concat] at ht'
        injection ht' with ht''
        rw [hls, ht'']
      · rw [hse]
        constructor
        · intro _
          exact ⟨t, rfl, hl⟩
        · intro _ heq
          have hlen := congrArg List.length heq
          simp at hlen
      · intro t' ht' _
        injection ht' with ht''
        subst ht''
        exact ⟨hse, hls⟩

/-- Witness for C5 at the concrete quiescent state `baseState` (an
emission fires there: discovery completed with zero ports). -/
theorem doUpdateStatus_edge_triggered_witness :
    StatusInv (doUpdateStatus baseState 20000 none) ∧
    ((doUpdateStatus baseState 20000 none).statusEmits ≠ baseState.statusEmits ↔
      ∃ t, computeStatus baseState 20000 none = some t ∧
        baseState.lastStatus ≠ some (fingerprint t)) ∧
    (∀ t, computeStatus baseState 20000 none = some t →
      baseState.lastStatus ≠ some (fingerprint t) →
      (doUpdateStatus baseState 20000 none).statusEmits = baseState.statusEmits ++ [t] ∧
      (doUpdateStatus baseState 20000 none).lastStatus = some (fingerprint t)) :=
  doUpdateStatus_edge_triggered baseState 20000 none
    ⟨by simp [baseState], by simp [baseState]⟩

end TSP
